import Mathlib

/-
Verification of the redcaplib client library (redcaplib/core.py) against its
natural-language specification.

The embedding below translates the Python source shallowly into Lean:
- HTTP interaction is modelled by an oracle script: a list of per-attempt
  outcomes (connection-establishment failure, post-send read timeout, or a
  received response).  Each call to the underlying requests.post consumes one
  script entry; functions return the Python result (or raised error) together
  with the number of post attempts actually performed.
- External collaborators that are not part of this repository (json.loads,
  ks.verify_response_content_length, ks.seq_of_maps_into_csv_data) are fields
  of an Env record, matching the spec's treatment of them as consumed
  interfaces.
- Python dicts are association lists built by left-to-right insertion with
  override (dict-literal semantics); Python None/raised exceptions are made
  explicit in the return types.
-/

set_option autoImplicit false

namespace Redcap

/-- A JSON value as decoded by Python json.loads (numbers modelled as
integers, which covers all values this library inspects). -/
inductive Json where
  | null
  | bool (b : Bool)
  | num (n : Int)
  | str (s : String)
  | arr (xs : List Json)
  | obj (kvs : List (String × Json))

/-- Connection Spec: caller-supplied bundle of api-url, token and username
(the keys 'api-url', 'token', 'username' of the redcap_spec dict). -/
structure RedcapSpec where
  apiUrl : String
  token : String
  username : String

/-- The 'output' argument of _htpost: 'json' or 'raw'. -/
inductive Output where
  | json
  | raw

/-- A files_data entry as passed to requests.post for multipart upload:
field name, filename, content bytes, content type. -/
structure FilesData where
  fieldName : String
  filename : String
  content : List Nat
  contentType : String

/-- An HTTP response as seen through the requests library: status code,
headers, raw body bytes (.content) and charset-decoded text (.text).
content and text are carried separately because requests derives .text from
.content using the (possibly wrong) declared charset. -/
structure HtResponse where
  status : Nat
  headers : List (String × String)
  content : List Nat
  text : String

/-- The outcome of one requests.post call, supplied by the oracle script:
a connection-establishment failure (requests ConnectionError /
ConnectTimeout / urllib3 NewConnectionError), a post-send read timeout
(requests ReadTimeout), or a received response. -/
inductive HtAttempt where
  | connFail
  | readTimeout
  | response (r : HtResponse)

/-- What _htpost hands back to its caller when it does not raise: a decoded
JSON value (output='json'), a filename/bytes pair (output='raw'), or Python
None (the function body falls off the end without a return statement, which
happens on the retry path because the recursive call's result is discarded). -/
inductive TransportRet where
  | json (v : Json)
  | raw (filename : String) (data : List Nat)
  | pyNone

/-- Raised errors, one constructor per distinct raise site (plus pyError for
exceptions arising from Python dynamic typing such as KeyError/TypeError/
ValueError, and scriptShort for the model artifact of an oracle script that
is shorter than the number of post attempts the code makes). -/
inductive RcErr where
  | insecureUrl
  | incompleteRead
  | badStatus (status : Nat) (text : String)
  | connExhausted
  | readTimeout
  | emptyResult
  | usernameNotFound (u : String)
  | noFullExportAccess (u : String)
  | pyError
  | scriptShort

/-- External collaborators consumed by the library (outside this repository):
Python json.loads, ks.verify_response_content_length, and
ks.seq_of_maps_into_csv_data. -/
structure Env where
  jsonLoads : String → Json
  verifyLen : HtResponse → Bool
  seqOfMapsIntoCsvData : List (List (String × String)) → Bool → List Nat

/-- listStarts needle hay: needle is an initial segment of hay
(character-by-character). -/
def listStarts : List Char → List Char → Bool
  | [], _ => true
  | _ :: _, [] => false
  | p :: ps, s :: ss => p == s && listStarts ps ss

/-- Model of Python str.startswith: strStarts s pre is s.startswith(pre). -/
def strStarts (s pre : String) : Bool :=
  listStarts pre.toList s.toList

/-- ASCII lowercasing of one character (model of str.lower on the header
values this library compares, which are ASCII). -/
def lowerChar (c : Char) : Char :=
  if 'A' ≤ c && c ≤ 'Z' then Char.ofNat (c.toNat + 32) else c

/-- ASCII lowercasing of a string. -/
def strLower (s : String) : String :=
  String.mk (s.toList.map lowerChar)

/-- Join a list of strings with a separator (model of str.join and of the
separators json.dumps places between items). -/
def interSep : String → List String → String
  | _, [] => ""
  | _, [x] => x
  | sep, x :: y :: rest => x ++ sep ++ interSep sep (y :: rest)

/-- Model of requests response headers .get(k, d): case-insensitive key
lookup with default (requests uses a CaseInsensitiveDict). -/
def headersGet (hs : List (String × String)) (k d : String) : String :=
  match hs.find? (fun p => strLower p.fst == strLower k) with
  | some p => p.snd
  | none => d

/-- Helper for the filename regex: consume characters up to (not including)
the first double quote; none if no closing quote exists. -/
def captureToQuote : List Char → Option (List Char)
  | [] => none
  | c :: rest =>
    if c == '"' then some []
    else
      match captureToQuote rest with
      | some cap => some (c :: cap)
      | none => none

/-- Scan for the leftmost match of the regex used by _parse_filename,
a space followed by name="..." with a lazy capture up to the first closing
quote; empty string when no match.  Mirrors re.findall with the pattern
of _parse_filename, keeping only the first match. -/
def scanForName : List Char → String
  | [] => ""
  | c :: rest =>
    if listStarts (" name=\"".toList) (c :: rest) then
      match captureToQuote (List.drop 7 (c :: rest)) with
      | some cap => String.mk cap
      | none => scanForName rest
    else scanForName rest

/-- Model of _parse_filename: extract the filename from the Content-Type
header via the regex described above; empty string if absent. -/
def parseFilename (headers : List (String × String)) : String :=
  scanForName (headersGet headers "Content-Type" "").toList

/-- The condition under which _htpost runs the body-length completeness
check: the Transfer-Encoding header is absent (the '*' default is returned)
or its value, lowercased, is identity. -/
def lengthCheckApplies (r : HtResponse) : Bool :=
  headersGet r.headers "Transfer-Encoding" "*" == "*"
    || strLower (headersGet r.headers "Transfer-Encoding" "") == "identity"

/-- Model of _htpost.  Returns the Python result (or raised error) together
with the number of requests.post calls performed.  Control flow mirrors the
source: reject a url that does not start with the string https before any
post; on a received response run the completeness check when it applies and
raise on verification failure; on the desired status decode per output; on
any other status raise; on a connection-establishment failure decrement the
attempt counter, raise when it reaches zero, otherwise recurse -- the
recursive call reverts output to its json default and its result is
discarded, so the function then returns None. -/
def htpost (env : Env) (spec : RedcapSpec) (postData : List (String × String))
    (desiredStatus : Nat) (attemptsLeft : Int) (output : Output)
    (filesData : Option FilesData) (script : List HtAttempt) :
    Except RcErr TransportRet × Nat :=
  if strStarts spec.apiUrl "https" = false then (.error .insecureUrl, 0)
  else
    match script with
    | [] => (.error .scriptShort, 0)
    | .readTimeout :: _ => (.error .readTimeout, 1)
    | .response r :: _ =>
      if lengthCheckApplies r && !(env.verifyLen r) then
        (.error .incompleteRead, 1)
      else if r.status == desiredStatus then
        match output with
        | .json => (.ok (.json (env.jsonLoads r.text)), 1)
        | .raw => (.ok (.raw (parseFilename r.headers) r.content), 1)
      else
        (.error (.badStatus r.status r.text), 1)
    | .connFail :: rest =>
      if attemptsLeft - 1 = 0 then (.error .connExhausted, 1)
      else
        match htpost env spec postData desiredStatus (attemptsLeft - 1)
            Output.json filesData rest with
        | (.error e, n) => (.error e, n + 1)
        | (.ok _, n) => (.ok .pyNone, n + 1)

/-- Insert a key-value pair into an association list with Python dict
semantics: overwrite an existing binding for the key, else append. -/
def dictInsert (d : List (String × String)) (k v : String) :
    List (String × String) :=
  if d.any (fun p => p.fst == k) then
    d.map (fun p => if p.fst == k then (k, v) else p)
  else d ++ [(k, v)]

/-- Build a Python dict literal from its key-value items, left to right,
with later duplicate keys overriding earlier ones (CPython dict-literal
evaluation order; iteration order is modelled as insertion order). -/
def pyDictOf (kvs : List (String × String)) : List (String × String) :=
  kvs.foldl (fun d p => dictInsert d p.fst p.snd) []

/-- Lookup in a dict built by pyDictOf (first binding for the key). -/
def dictGet (d : List (String × String)) (k : String) : Option String :=
  (d.find? (fun p => p.fst == k)).map (fun p => p.snd)

/-- JSON string escaping as done by json.dumps for the characters this
development exercises (backslash and double quote). -/
def jsonEscapeChar (c : Char) : List Char :=
  if c == '"' then ['\\', '"']
  else if c == '\\' then ['\\', '\\']
  else [c]

/-- Escape every character of a string for JSON output. -/
def jsonEscape (s : String) : String :=
  String.mk (s.toList.foldr (fun c acc => jsonEscapeChar c ++ acc) [])

/-- A JSON string literal with surrounding quotes. -/
def jsonQuote (s : String) : String :=
  "\"" ++ jsonEscape s ++ "\""

/-- json.dumps of a flat string-valued dict, with the default ', ' and ': '
separators of Python json.dumps. -/
def jsonDumpsObj (d : List (String × String)) : String :=
  "\x7b" ++ interSep ", "
      (d.map (fun p => jsonQuote p.fst ++ ": " ++ jsonQuote p.snd)) ++ "\x7d"

/-- json.dumps of a list of flat string-valued dicts. -/
def jsonDumpsArr (ds : List (List (String × String))) : String :=
  "[" ++ interSep ", " (ds.map jsonDumpsObj) ++ "]"

/-- Model of Python int(s) on a string: strip surrounding whitespace, allow
one optional sign, then at least one decimal digit and nothing else; none
models a raised ValueError. -/
def pyIntOfString (s : String) : Option Int :=
  let ws := fun c : Char => c == ' ' || c == '\t' || c == '\n' || c == '\r'
  let cs := (((s.toList.dropWhile ws).reverse.dropWhile ws)).reverse
  match cs with
  | [] => none
  | c :: rest =>
    let signed : Bool × List Char :=
      if c == '-' then (true, rest)
      else if c == '+' then (false, rest)
      else (false, c :: rest)
    if signed.snd.isEmpty || !(signed.snd.all (fun d => d.isDigit)) then none
    else
      let n : Nat := signed.snd.foldl (fun acc d => acc * 10 + (d.toNat - 48)) 0
      some (if signed.fst then -(n : Int) else (n : Int))

/-- Model of Python int(v) on a JSON-decoded value: identity on integers,
0/1 on booleans, string parse on strings; none (a raised TypeError or
ValueError) otherwise. -/
def pyIntOfJson : Json → Option Int
  | .num n => some n
  | .bool b => some (if b then 1 else 0)
  | .str s => pyIntOfString s
  | _ => none

/-- Python dict .get(k, d) on a JSON object's fields. -/
def objGet (kvs : List (String × Json)) (k : String) (d : Json) : Json :=
  match kvs.find? (fun p => p.fst == k) with
  | some p => p.snd
  | none => d

/-- Modelled from the spec: ks.enum (from the external kickshaws library,
not part of this repository) assigns ordinals in argument order, so
DataExportAccess = ks.enum of NO_ACCESS, FULL_DATA_SET, DE-IDENTIFIED gives
FULL_DATA_SET the ordinal 1 (matching the source comment 1 --> FULL_DATA_SET). -/
def fullDataSetOrdinal : Int := 1

/-- The value user_rcd.get('data_export', -1) read by
_token_has_full_data_export_privs. -/
def dataExportValue (kvs : List (String × Json)) : Json :=
  objGet kvs "data_export" (Json.num (-1))

/-- The pure core of _token_has_full_data_export_privs, applied to the
resolved user record: int(user_rcd.get('data_export', -1)) compared with
the FULL_DATA_SET ordinal; a failed int conversion is a raised error. -/
def tokenHasFullDataExportPrivsCheck (kvs : List (String × Json)) :
    Except RcErr Bool :=
  match pyIntOfJson (dataExportValue kvs) with
  | some n => .ok (n == fullDataSetOrdinal)
  | none => .error .pyError

/-- Python equality-with-None test applied to an _htpost result: true for
the None return (dropped retry result) and for JSON null; everything else,
including an empty list, compares unequal to None. -/
def isPyNoneEq : TransportRet → Bool
  | .pyNone => true
  | .json .null => true
  | _ => false

/-- Post data built by _get_all_users. -/
def getAllUsersPostData (spec : RedcapSpec) : List (String × String) :=
  pyDictOf [("token", spec.token), ("content", "user"),
            ("format", "json"), ("type", "flat")]

/-- Post data built by get_full_record. -/
def getFullRecordPostData (spec : RedcapSpec) (recordId : String) :
    List (String × String) :=
  pyDictOf [("token", spec.token), ("content", "record"),
            ("format", "json"), ("type", "flat"), ("records", recordId)]

/-- Post data built by get_all_full_records. -/
def getAllFullRecordsPostData (spec : RedcapSpec) : List (String × String) :=
  pyDictOf [("token", spec.token), ("content", "record"),
            ("format", "json"), ("type", "flat")]

/-- Post data built by the field-selecting record export (source function
named get_all_ followed by partial_records). -/
def getSelectedFieldsPostData (spec : RedcapSpec) (fields : List String) :
    List (String × String) :=
  pyDictOf [("token", spec.token), ("content", "record"),
            ("format", "json"), ("type", "flat"),
            ("fields", interSep "," fields)]

/-- Post data built by bulk_import_records; records are modelled as flat
string-valued maps, serialized with json.dumps. -/
def bulkImportRecordsPostData (spec : RedcapSpec)
    (records : List (List (String × String))) : List (String × String) :=
  pyDictOf [("token", spec.token), ("content", "record"),
            ("format", "json"), ("type", "flat"),
            ("overwriteBehavior", "normal"), ("forceAutoNumber", "false"),
            ("returnContent", "ids"), ("returnFormat", "json"),
            ("data", jsonDumpsArr records)]

/-- Post data built by delete_record. -/
def deleteRecordPostData (spec : RedcapSpec) (recordId : String) :
    List (String × String) :=
  pyDictOf [("token", spec.token), ("content", "record"),
            ("action", "delete"), ("records[0]", recordId)]

/-- Post data built by get_attachment. -/
def getAttachmentPostData (spec : RedcapSpec) (recordId field : String) :
    List (String × String) :=
  pyDictOf [("token", spec.token), ("content", "file"),
            ("action", "export"), ("record", recordId), ("field", field)]

/-- Post data built by attach_as_csv. -/
def attachAsCsvPostData (spec : RedcapSpec) (recordId field : String) :
    List (String × String) :=
  pyDictOf [("token", spec.token), ("content", "file"),
            ("action", "import"), ("record", recordId), ("field", field)]

/-- Post data built by update_field: the data field is json.dumps of a
single-element list holding the dict literal with keys record_id and the
caller-chosen field name (dict-literal override semantics when they
collide). -/
def updateFieldPostData (spec : RedcapSpec) (recordId field val : String) :
    List (String × String) :=
  pyDictOf [("token", spec.token), ("content", "record"),
            ("format", "json"), ("type", "flat"),
            ("overwriteBehavior", "normal"), ("forceAutoNumber", "false"),
            ("returnContent", "ids"), ("returnFormat", "json"),
            ("data", jsonDumpsArr [pyDictOf [("record_id", recordId),
                                             (field, val)]])]

/-- Model of _get_all_users: posts a content=user request with default
attempts and json output, then raises the empty-result error when the
result compares equal to None; otherwise hands the result back unchanged. -/
def getAllUsersOp (env : Env) (spec : RedcapSpec) (script : List HtAttempt) :
    Except RcErr TransportRet × Nat :=
  match htpost env spec (getAllUsersPostData spec) 200 3 Output.json none
      script with
  | (.ok r, n) =>
    if isPyNoneEq r then (.error .emptyResult, n) else (.ok r, n)
  | (.error e, n) => (.error e, n)

/-- The linear scan of _get_user over the decoded user list: returns the
first entry whose username field equals the argument; a non-dict entry or a
dict without a username key raises (TypeError/KeyError). -/
def findUser : List Json → String → Except RcErr (Option Json)
  | [], _ => .ok none
  | u :: rest, username =>
    match u with
    | .obj kvs =>
      match kvs.find? (fun p => p.fst == "username") with
      | some p =>
        match p.snd with
        | .str s =>
          if s == username then .ok (some u) else findUser rest username
        | _ => findUser rest username
      | none => .error .pyError
    | _ => .error .pyError

/-- Model of _get_user: fetch all users, scan for the username, raise the
LookupError when absent.  A decoded result that is not a JSON array is
modelled as a dynamic-typing error (the Python for-loop would misbehave on
it). -/
def getUserOp (env : Env) (spec : RedcapSpec) (username : String)
    (script : List HtAttempt) : Except RcErr Json × Nat :=
  match getAllUsersOp env spec script with
  | (.error e, n) => (.error e, n)
  | (.ok r, n) =>
    match r with
    | .json (.arr users) =>
      match findUser users username with
      | .ok (some u) => (.ok u, n)
      | .ok none => (.error (.usernameNotFound username), n)
      | .error e => (.error e, n)
    | _ => (.error .pyError, n)

/-- Model of _token_has_full_data_export_privs: resolve the user for
spec.username, then run the data_export comparison on the resolved record. -/
def tokenPrivsOp (env : Env) (spec : RedcapSpec) (script : List HtAttempt) :
    Except RcErr Bool × Nat :=
  match getUserOp env spec spec.username script with
  | (.error e, n) => (.error e, n)
  | (.ok u, n) =>
    match u with
    | .obj kvs =>
      match tokenHasFullDataExportPrivsCheck kvs with
      | .ok b => (.ok b, n)
      | .error e => (.error e, n)
    | _ => (.error .pyError, n)

/-- Model of get_full_record: privilege gate, then the record fetch on the
remainder of the oracle script. -/
def getFullRecordOp (env : Env) (spec : RedcapSpec) (recordId : String)
    (script : List HtAttempt) : Except RcErr TransportRet × Nat :=
  match tokenPrivsOp env spec script with
  | (.error e, n) => (.error e, n)
  | (.ok false, n) => (.error (.noFullExportAccess spec.username), n)
  | (.ok true, n) =>
    let step := htpost env spec (getFullRecordPostData spec recordId) 200 3
        Output.json none (script.drop n)
    (step.fst, n + step.snd)

/-- Model of get_all_full_records: privilege gate, then the full export. -/
def getAllFullRecordsOp (env : Env) (spec : RedcapSpec)
    (script : List HtAttempt) : Except RcErr TransportRet × Nat :=
  match tokenPrivsOp env spec script with
  | (.error e, n) => (.error e, n)
  | (.ok false, n) => (.error (.noFullExportAccess spec.username), n)
  | (.ok true, n) =>
    let step := htpost env spec (getAllFullRecordsPostData spec) 200 3
        Output.json none (script.drop n)
    (step.fst, n + step.snd)

/-- Model of the field-selecting record export (source function named
get_all_ followed by partial_records): privilege gate, then the export of
the chosen fields. -/
def getSelectedFieldsOp (env : Env) (spec : RedcapSpec) (fields : List String)
    (script : List HtAttempt) : Except RcErr TransportRet × Nat :=
  match tokenPrivsOp env spec script with
  | (.error e, n) => (.error e, n)
  | (.ok false, n) => (.error (.noFullExportAccess spec.username), n)
  | (.ok true, n) =>
    let step := htpost env spec (getSelectedFieldsPostData spec fields) 200 3
        Output.json none (script.drop n)
    (step.fst, n + step.snd)

/-- The int conversion mapped over the fetched id maps by
_get_all_record_ids: mp[field] (KeyError when absent) then int() on the
value. -/
def mapRecordIds : List Json → String → Except RcErr (List Int)
  | [], _ => .ok []
  | m :: rest, fieldName =>
    match m with
    | .obj kvs =>
      match kvs.find? (fun p => p.fst == fieldName) with
      | none => .error .pyError
      | some p =>
        match pyIntOfJson p.snd with
        | none => .error .pyError
        | some i =>
          match mapRecordIds rest fieldName with
          | .ok is => .ok (i :: is)
          | .error e => .error e
    | _ => .error .pyError

/-- Model of _get_all_record_ids: fetch the id field for every record and
convert each to an integer. -/
def getAllRecordIdsOp (env : Env) (spec : RedcapSpec) (fieldName : String)
    (script : List HtAttempt) : Except RcErr (List Int) × Nat :=
  match getSelectedFieldsOp env spec [fieldName] script with
  | (.error e, n) => (.error e, n)
  | (.ok r, n) =>
    match r with
    | .json (.arr maps) =>
      match mapRecordIds maps fieldName with
      | .ok ids => (.ok ids, n)
      | .error e => (.error e, n)
    | _ => (.error .pyError, n)

/-- Python max over a list of integers; none models the ValueError that
max raises on an empty sequence. -/
def listMaxInt : List Int → Option Int
  | [] => none
  | [x] => some x
  | x :: y :: rest =>
    match listMaxInt (y :: rest) with
    | some m => some (if x ≥ m then x else m)
    | none => none

/-- Model of get_max_record_id: all record ids, then max (raising on an
empty project). -/
def getMaxRecordIdOp (env : Env) (spec : RedcapSpec) (fieldName : String)
    (script : List HtAttempt) : Except RcErr Int × Nat :=
  match getAllRecordIdsOp env spec fieldName script with
  | (.error e, n) => (.error e, n)
  | (.ok ids, n) =>
    match listMaxInt ids with
    | some m => (.ok m, n)
    | none => (.error .pyError, n)

/-- Model of bulk_import_records. -/
def bulkImportRecordsOp (env : Env) (spec : RedcapSpec)
    (records : List (List (String × String))) (script : List HtAttempt) :
    Except RcErr TransportRet × Nat :=
  htpost env spec (bulkImportRecordsPostData spec records) 200 3 Output.json
    none script

/-- Model of delete_record. -/
def deleteRecordOp (env : Env) (spec : RedcapSpec) (recordId : String)
    (script : List HtAttempt) : Except RcErr TransportRet × Nat :=
  htpost env spec (deleteRecordPostData spec recordId) 200 3 Output.json
    none script

/-- Model of get_attachment: raw output so the body bytes are returned
untouched by any declared charset. -/
def getAttachmentOp (env : Env) (spec : RedcapSpec) (recordId field : String)
    (script : List HtAttempt) : Except RcErr TransportRet × Nat :=
  htpost env spec (getAttachmentPostData spec recordId field) 200 3
    Output.raw none script

/-- Model of attach_as_csv: multipart upload of the CSV-converted records
(conversion performed by the external collaborator), raw output. -/
def attachAsCsvOp (env : Env) (spec : RedcapSpec) (recordId field fn : String)
    (records : List (List (String × String))) (script : List HtAttempt) :
    Except RcErr TransportRet × Nat :=
  htpost env spec (attachAsCsvPostData spec recordId field) 200 3 Output.raw
    (some ⟨"file", fn, env.seqOfMapsIntoCsvData records true, "text/plain"⟩)
    script

/-- Model of update_field. -/
def updateFieldOp (env : Env) (spec : RedcapSpec) (recordId field val : String)
    (script : List HtAttempt) : Except RcErr TransportRet × Nat :=
  htpost env spec (updateFieldPostData spec recordId field val) 200 3
    Output.raw none script

/-- Refinement-side definition following the spec's words only: a url uses
HTTPS when it begins with the https scheme followed by the :// separator.
Used to compare the spec's notion (does not use HTTPS) with the source's
string-prefix test. -/
def urlUsesHttps (url : String) : Bool :=
  strStarts url "https://"

/-- Concrete environment for witnesses: json.loads always yields the empty
array, length verification succeeds, CSV conversion yields no bytes. -/
def envArr : Env :=
  ⟨fun _ => Json.arr [], fun _ => true, fun _ _ => []⟩

/-- Concrete environment whose length verification fails. -/
def envBadLen : Env :=
  ⟨fun _ => Json.null, fun _ => false, fun _ _ => []⟩

/-- A well-formed Connection Spec with an HTTPS api-url. -/
def specGood : RedcapSpec :=
  ⟨"https://redcap.example.org/api/", "tok", "alice"⟩

/-- A Connection Spec whose api-url does not use HTTPS yet begins with the
characters https. -/
def specSneaky : RedcapSpec :=
  ⟨"httpsneaky.example.com/api/", "tok", "alice"⟩

/-- A plain 200 response with no headers and an empty body. -/
def respOk : HtResponse :=
  ⟨200, [], [], "[]"⟩

/-- A 200 response declaring identity transfer encoding. -/
def respIdentity : HtResponse :=
  ⟨200, [("Transfer-Encoding", "identity")], [], ""⟩

/-- A 200 response declaring chunked transfer encoding. -/
def respChunked : HtResponse :=
  ⟨200, [("Transfer-Encoding", "chunked")], [], ""⟩

/-- A 200 attachment response whose Content-Type carries the name parameter
in the spaced form matched by the source regex, with three body bytes and a
misleading text decoding. -/
def respAttachment : HtResponse :=
  ⟨200, [("Content-Type", "text/plain; name=\"report.csv\";charset=UTF-8")],
   [0, 255, 1], "mangled"⟩

/-- A 200 attachment response whose Content-Type contains the name
parameter directly after the semicolon, with no preceding space. -/
def respAttachmentNoSpace : HtResponse :=
  ⟨200, [("Content-Type", "text/plain;name=\"report.csv\"")],
   [0, 255, 1], "mangled"⟩

/-- Transport rejects a url that fails the https prefix test before
consuming any oracle-script entry, whatever the script holds. -/
theorem htpost_insecure {env : Env} {spec : RedcapSpec}
    {pd : List (String × String)} {ds : Nat} {al : Int} {out : Output}
    {fd : Option FilesData} {script : List HtAttempt}
    (h : strStarts spec.apiUrl "https" = false) :
    htpost env spec pd ds al out fd script = (.error .insecureUrl, 0) := by
  cases script with
  | nil => simp [htpost, h]
  | cons a rest => cases a <;> simp [htpost, h]

/-- C1: a call to Transport in which the desired-status response arrives
only after a retried connection-establishment failure returns Python None
(the recursive retry call's result is discarded and the function falls off
the end), not the decoded result; the same call with the response on the
first attempt does return the decoded result. -/
theorem c1_retried_success_returns_none :
    htpost envArr specGood [] 200 3 Output.json none
        [HtAttempt.response respOk]
      = (.ok (.json (Json.arr [])), 1)
    ∧ htpost envArr specGood [] 200 3 Output.json none
        [HtAttempt.connFail, HtAttempt.response respOk]
      = (.ok TransportRet.pyNone, 2) :=
  ⟨rfl, rfl⟩

/-- The user-list fetch inherits the url rejection with no network attempt. -/
theorem getAllUsersOp_insecure {env : Env} {spec : RedcapSpec}
    {script : List HtAttempt} (h : strStarts spec.apiUrl "https" = false) :
    getAllUsersOp env spec script = (.error .insecureUrl, 0) := by
  simp [getAllUsersOp, htpost_insecure h]

/-- The user resolution inherits the url rejection with no network attempt. -/
theorem getUserOp_insecure {env : Env} {spec : RedcapSpec} {u : String}
    {script : List HtAttempt} (h : strStarts spec.apiUrl "https" = false) :
    getUserOp env spec u script = (.error .insecureUrl, 0) := by
  simp [getUserOp, getAllUsersOp_insecure h]

/-- The privilege check inherits the url rejection with no network attempt. -/
theorem tokenPrivsOp_insecure {env : Env} {spec : RedcapSpec}
    {script : List HtAttempt} (h : strStarts spec.apiUrl "https" = false) :
    tokenPrivsOp env spec script = (.error .insecureUrl, 0) := by
  simp [tokenPrivsOp, getUserOp_insecure h]

/-- C2 counterexample: the api-url httpsneaky.example.com/api/ does not use
HTTPS, yet delete_record raises no configuration error and performs a
network attempt (one oracle entry is consumed and the decoded response is
returned), because the source guard is only a string-prefix test. -/
theorem c2_counterexample :
    urlUsesHttps specSneaky.apiUrl = false
    ∧ deleteRecordOp envArr specSneaky "7" [HtAttempt.response respOk]
      = (.ok (.json (Json.arr [])), 1) :=
  ⟨rfl, rfl⟩

/-- C2 (amended): for every operation and every Connection Spec whose
api-url does not start with the string https, the call fails with the
configuration error before any network attempt (zero oracle entries are
consumed). -/
theorem c2_insecure_url_all_ops (env : Env) (spec : RedcapSpec)
    (h : strStarts spec.apiUrl "https" = false) :
    (∀ script, getAllUsersOp env spec script = (.error .insecureUrl, 0))
    ∧ (∀ u script, getUserOp env spec u script = (.error .insecureUrl, 0))
    ∧ (∀ script, tokenPrivsOp env spec script = (.error .insecureUrl, 0))
    ∧ (∀ rid script,
        getFullRecordOp env spec rid script = (.error .insecureUrl, 0))
    ∧ (∀ script,
        getAllFullRecordsOp env spec script = (.error .insecureUrl, 0))
    ∧ (∀ fs script,
        getSelectedFieldsOp env spec fs script = (.error .insecureUrl, 0))
    ∧ (∀ f script,
        getMaxRecordIdOp env spec f script = (.error .insecureUrl, 0))
    ∧ (∀ rs script,
        bulkImportRecordsOp env spec rs script = (.error .insecureUrl, 0))
    ∧ (∀ rid script,
        deleteRecordOp env spec rid script = (.error .insecureUrl, 0))
    ∧ (∀ rid f script,
        getAttachmentOp env spec rid f script = (.error .insecureUrl, 0))
    ∧ (∀ rid f fn rs script,
        attachAsCsvOp env spec rid f fn rs script = (.error .insecureUrl, 0))
    ∧ (∀ rid f v script,
        updateFieldOp env spec rid f v script = (.error .insecureUrl, 0)) := by
  refine ⟨fun script => getAllUsersOp_insecure h,
          fun u script => getUserOp_insecure h,
          fun script => tokenPrivsOp_insecure h,
          fun rid script => ?_, fun script => ?_, fun fs script => ?_,
          fun f script => ?_, fun rs script => ?_, fun rid script => ?_,
          fun rid f script => ?_, fun rid f fn rs script => ?_,
          fun rid f v script => ?_⟩
  · simp [getFullRecordOp, tokenPrivsOp_insecure h]
  · simp [getAllFullRecordsOp, tokenPrivsOp_insecure h]
  · simp [getSelectedFieldsOp, tokenPrivsOp_insecure h]
  · simp [getMaxRecordIdOp, getAllRecordIdsOp, getSelectedFieldsOp,
          tokenPrivsOp_insecure h]
  · simp [bulkImportRecordsOp, htpost_insecure h]
  · simp [deleteRecordOp, htpost_insecure h]
  · simp [getAttachmentOp, htpost_insecure h]
  · simp [attachAsCsvOp, htpost_insecure h]
  · simp [updateFieldOp, htpost_insecure h]

/-- C2 witness: the amended theorem applied to a plain http url, projected
on the delete_record conjunct at an empty oracle script. -/
theorem c2_witness :
    deleteRecordOp envArr ⟨"http://redcap.example.org/api/", "tok", "alice"⟩
      "7" [] = (.error .insecureUrl, 0) :=
  (c2_insecure_url_all_ops envArr
    ⟨"http://redcap.example.org/api/", "tok", "alice"⟩ rfl).2.2.2.2.2.2.2.2.1
    "7" []

/-- C3 counterexample: called with attempt counter 1 and every attempt a
connection-establishment failure, Transport raises the connection-exhausted
error after exactly one POST attempt -- it performs zero retries, not the
one retry the claim requires (a second oracle entry is available but never
consumed). -/
theorem c3_counterexample :
    htpost envArr specGood [] 200 1 Output.json none
        [HtAttempt.connFail, HtAttempt.connFail]
      = (.error .connExhausted, 1) :=
  rfl

/-- C3 (amended): with attempt counter n at least 1 and every attempt a
connection-establishment failure, Transport performs exactly n POST
attempts in total -- the initial attempt plus n minus 1 retries -- and then
raises the connection-exhausted error; a post-send read timeout is never
retried: exactly one attempt is made and the timeout propagates
immediately. -/
theorem c3_retry_accounting (env : Env) (spec : RedcapSpec)
    (pd : List (String × String)) (ds : Nat) (fd : Option FilesData)
    (h : strStarts spec.apiUrl "https" = true) :
    (∀ n : Nat, 1 ≤ n → ∀ (out : Output) (rest : List HtAttempt),
      htpost env spec pd ds (n : Int) out fd
          (List.replicate n HtAttempt.connFail ++ rest)
        = (.error .connExhausted, n))
    ∧ (∀ (al : Int) (out : Output) (rest : List HtAttempt),
      htpost env spec pd ds al out fd (HtAttempt.readTimeout :: rest)
        = (.error .readTimeout, 1)) := by
  constructor
  · intro n
    induction n with
    | zero => intro h0; omega
    | succ m ih =>
      intro _ out rest
      rcases Nat.eq_zero_or_pos m with hm | hm
      · subst hm
        simp [htpost, h]
      · have hne : ((m : Nat) : Int) ≠ 0 := by omega
        have hrec := ih hm Output.json rest
        have hcast : ((m + 1 : Nat) : Int) - 1 = ((m : Nat) : Int) := by
          push_cast
          ring
        simp only [List.replicate_succ, List.cons_append]
        simp only [htpost, h, Bool.true_eq_false, if_false, hcast,
          if_neg hne, List.append_eq]
        rw [hrec]
  · intro al out rest
    simp [htpost, h]

/-- C3 witness: three connection failures with counter 3 exhaust after
exactly three attempts, and a read timeout propagates after one. -/
theorem c3_witness :
    htpost envArr specGood [] 200 ((3 : Nat) : Int) Output.json none
        (List.replicate 3 HtAttempt.connFail ++ [])
      = (.error .connExhausted, 3)
    ∧ htpost envArr specGood [] 200 3 Output.json none
        [HtAttempt.readTimeout] = (.error .readTimeout, 1) :=
  ⟨(c3_retry_accounting envArr specGood [] 200 none rfl).1 3 (by decide)
      Output.json [],
   (c3_retry_accounting envArr specGood [] 200 none rfl).2 3 Output.json []⟩

/-- C4 counterexample: a response that declares identity transfer encoding
is still subjected to the completeness check -- with failing length
verification Transport raises the incomplete-transfer error, which the
claim says cannot happen for identity encoding. -/
theorem c4_counterexample :
    headersGet respIdentity.headers "Transfer-Encoding" "" = "identity"
    ∧ htpost envBadLen specGood [] 200 3 Output.json none
        [HtAttempt.response respIdentity]
      = (.error .incompleteRead, 1) :=
  ⟨rfl, rfl⟩

/-- C4 (amended): Transport raises the incomplete-transfer error on a
received response exactly when the length check applies -- the
Transfer-Encoding header is absent (the '*' default) or equals identity
case-insensitively -- and the external length verification fails; when any
other encoding such as chunked is declared, no incomplete-transfer error is
raised. -/
theorem c4_length_check_exactly_when (env : Env) (spec : RedcapSpec)
    (pd : List (String × String)) (ds : Nat) (al : Int) (out : Output)
    (fd : Option FilesData) (r : HtResponse) (rest : List HtAttempt)
    (h : strStarts spec.apiUrl "https" = true) :
    (htpost env spec pd ds al out fd (HtAttempt.response r :: rest)).fst
        = Except.error RcErr.incompleteRead
      ↔ lengthCheckApplies r = true ∧ env.verifyLen r = false := by
  simp only [htpost, h, Bool.true_eq_false, if_false]
  by_cases hcv : (lengthCheckApplies r && !env.verifyLen r) = true
  · rw [if_pos hcv]
    simp only [Bool.and_eq_true, Bool.not_eq_true'] at hcv
    simp [hcv.1, hcv.2]
  · rw [if_neg hcv]
    apply iff_of_false
    · intro hl
      split at hl
      · cases out <;> simp at hl
      · simp at hl
    · intro hp
      exact hcv (by simp [hp.1, hp.2])

/-- C4 witness: the amended characterization applied to a chunked response
under an environment whose length verification fails. -/
theorem c4_witness :
    (htpost envBadLen specGood [] 200 3 Output.json none
        [HtAttempt.response respChunked]).fst
        = Except.error RcErr.incompleteRead
      ↔ lengthCheckApplies respChunked = true
        ∧ envBadLen.verifyLen respChunked = false :=
  c4_length_check_exactly_when envBadLen specGood [] 200 3 Output.json none
    respChunked [] rfl

/-- C5 counterexample: a resolved user whose data_export value is the
string abc, not parseable as an integer, makes the privilege check raise
(the int conversion fails) instead of returning false as the claim
states. -/
theorem c5_counterexample :
    tokenHasFullDataExportPrivsCheck [("data_export", Json.str "abc")]
      = .error .pyError :=
  rfl

/-- C5 (amended): the privilege check returns true exactly when the
resolved entry's data_export value converts by Python int to the
FULL_DATA_SET ordinal 1; it returns false whenever the value converts to
any other integer -- including the default -1 taken when the field is
absent -- and raises when the value is present but not convertible to an
integer. -/
theorem c5_privilege_check (kvs : List (String × Json)) :
    (tokenHasFullDataExportPrivsCheck kvs = .ok true
      ↔ pyIntOfJson (dataExportValue kvs) = some fullDataSetOrdinal)
    ∧ (∀ n : Int, pyIntOfJson (dataExportValue kvs) = some n →
        n ≠ fullDataSetOrdinal →
        tokenHasFullDataExportPrivsCheck kvs = .ok false)
    ∧ (pyIntOfJson (dataExportValue kvs) = none →
        tokenHasFullDataExportPrivsCheck kvs = .error .pyError) := by
  refine ⟨?_, ?_, ?_⟩
  · cases hv : pyIntOfJson (dataExportValue kvs) with
    | none => simp [tokenHasFullDataExportPrivsCheck, hv]
    | some n => simp [tokenHasFullDataExportPrivsCheck, hv, beq_iff_eq]
  · intro n hv hn
    simp [tokenHasFullDataExportPrivsCheck, hv, beq_eq_false_iff_ne.mpr hn]
  · intro hv
    simp [tokenHasFullDataExportPrivsCheck, hv]

/-- C5 witness: a data_export of 2 (de-identified) yields false, through
the amended theorem's second clause. -/
theorem c5_witness :
    tokenHasFullDataExportPrivsCheck [("data_export", Json.str "2")]
      = .ok false :=
  (c5_privilege_check [("data_export", Json.str "2")]).2.1 2 rfl (by decide)

/-- C6 counterexample: delete_record's field mapping carries neither
format=json nor type=flat, so not every record operation shares the claimed
common shape. -/
theorem c6_counterexample :
    dictGet (deleteRecordPostData specGood "7") "format" = none
    ∧ dictGet (deleteRecordPostData specGood "7") "type" = none :=
  ⟨rfl, rfl⟩

/-- C6 (amended): every record operation except delete_record builds a
field mapping containing token, content=record, format=json and type=flat
plus its operation-specific fields (records, fields, data and the import
options); delete_record's mapping contains token, content=record,
action=delete and the records[0] entry only, with no format or type
field. -/
theorem c6_record_ops_common_fields (spec : RedcapSpec) (recordId : String)
    (fields : List String) (records : List (List (String × String)))
    (field val : String) :
    (dictGet (getFullRecordPostData spec recordId) "token" = some spec.token
      ∧ dictGet (getFullRecordPostData spec recordId) "content"
          = some "record"
      ∧ dictGet (getFullRecordPostData spec recordId) "format" = some "json"
      ∧ dictGet (getFullRecordPostData spec recordId) "type" = some "flat"
      ∧ dictGet (getFullRecordPostData spec recordId) "records"
          = some recordId)
    ∧ (dictGet (getAllFullRecordsPostData spec) "token" = some spec.token
      ∧ dictGet (getAllFullRecordsPostData spec) "content" = some "record"
      ∧ dictGet (getAllFullRecordsPostData spec) "format" = some "json"
      ∧ dictGet (getAllFullRecordsPostData spec) "type" = some "flat")
    ∧ (dictGet (getSelectedFieldsPostData spec fields) "token"
          = some spec.token
      ∧ dictGet (getSelectedFieldsPostData spec fields) "content"
          = some "record"
      ∧ dictGet (getSelectedFieldsPostData spec fields) "format"
          = some "json"
      ∧ dictGet (getSelectedFieldsPostData spec fields) "type" = some "flat"
      ∧ dictGet (getSelectedFieldsPostData spec fields) "fields"
          = some (interSep "," fields))
    ∧ (dictGet (bulkImportRecordsPostData spec records) "token"
          = some spec.token
      ∧ dictGet (bulkImportRecordsPostData spec records) "content"
          = some "record"
      ∧ dictGet (bulkImportRecordsPostData spec records) "format"
          = some "json"
      ∧ dictGet (bulkImportRecordsPostData spec records) "type" = some "flat"
      ∧ dictGet (bulkImportRecordsPostData spec records) "data"
          = some (jsonDumpsArr records))
    ∧ (dictGet (updateFieldPostData spec recordId field val) "token"
          = some spec.token
      ∧ dictGet (updateFieldPostData spec recordId field val) "content"
          = some "record"
      ∧ dictGet (updateFieldPostData spec recordId field val) "format"
          = some "json"
      ∧ dictGet (updateFieldPostData spec recordId field val) "type"
          = some "flat")
    ∧ (dictGet (deleteRecordPostData spec recordId) "token" = some spec.token
      ∧ dictGet (deleteRecordPostData spec recordId) "content"
          = some "record"
      ∧ dictGet (deleteRecordPostData spec recordId) "action" = some "delete"
      ∧ dictGet (deleteRecordPostData spec recordId) "records[0]"
          = some recordId
      ∧ dictGet (deleteRecordPostData spec recordId) "format" = none
      ∧ dictGet (deleteRecordPostData spec recordId) "type" = none) := by
  simp [getFullRecordPostData, getAllFullRecordsPostData,
    getSelectedFieldsPostData, bulkImportRecordsPostData,
    updateFieldPostData, deleteRecordPostData, pyDictOf, dictInsert, dictGet]

/-- Environment whose json.loads yields a one-element user list. -/
def envUsers : Env :=
  ⟨fun _ => Json.arr [Json.str "x"], fun _ => true, fun _ _ => []⟩

/-- C7 counterexample: a decoded Transport result that is the empty list is
returned unchanged by the user-list fetch -- no empty-result error is
raised, because the source only compares the result against None and an
empty list is not equal to None. -/
theorem c7_counterexample :
    getAllUsersOp envArr specGood [HtAttempt.response respOk]
      = (.ok (.json (Json.arr [])), 1) :=
  rfl

/-- C7 (amended): the user-list fetch fails with the empty-result error
exactly when the Transport result compares equal to Python None -- that is,
when it is the None return of a retried call or the JSON null value; every
other decoded result, the empty list included, is returned unchanged. -/
theorem c7_get_all_users_none_check (env : Env) (spec : RedcapSpec)
    (script : List HtAttempt) (r : TransportRet) (n : Nat)
    (h : htpost env spec (getAllUsersPostData spec) 200 3 Output.json none
        script = (.ok r, n)) :
    getAllUsersOp env spec script
      = (if isPyNoneEq r then (.error .emptyResult, n) else (.ok r, n))
    ∧ (isPyNoneEq r = true
        ↔ r = TransportRet.pyNone ∨ r = TransportRet.json Json.null) := by
  constructor
  · simp [getAllUsersOp, h]
  · cases r with
    | pyNone => simp [isPyNoneEq]
    | raw f d => simp [isPyNoneEq]
    | json v => cases v <;> simp [isPyNoneEq]

/-- C7 witness: a non-empty decoded user list passes through unchanged. -/
theorem c7_witness :
    getAllUsersOp envUsers specGood [HtAttempt.response respOk]
      = (if isPyNoneEq (TransportRet.json (Json.arr [Json.str "x"])) then
            (.error .emptyResult, 1)
          else (.ok (.json (Json.arr [Json.str "x"])), 1))
    ∧ (isPyNoneEq (TransportRet.json (Json.arr [Json.str "x"])) = true
        ↔ TransportRet.json (Json.arr [Json.str "x"]) = TransportRet.pyNone
          ∨ TransportRet.json (Json.arr [Json.str "x"])
              = TransportRet.json Json.null) :=
  c7_get_all_users_none_check envUsers specGood [HtAttempt.response respOk]
    (TransportRet.json (Json.arr [Json.str "x"])) 1 rfl

/-- C8 counterexample: a Content-Type header that contains the name
parameter with no space before it -- text/plain;name="report.csv" -- makes
get_attachment return the empty filename, because the source regex requires
a space before name=, even though the header contains the parameter. -/
theorem c8_counterexample :
    headersGet respAttachmentNoSpace.headers "Content-Type" ""
      = "text/plain;name=\"report.csv\""
    ∧ getAttachmentOp envArr specGood "1" "f"
        [HtAttempt.response respAttachmentNoSpace]
      = (.ok (.raw "" [0, 255, 1]), 1) :=
  ⟨rfl, rfl⟩

/-- C8 (amended): for every 200 response (passing the length verification),
get_attachment returns the raw body bytes unchanged by the declared charset
(the charset-dependent text decoding is ignored), paired with the filename
produced by the source regex -- the first capture of a space followed by
name="..." in the Content-Type header, and the empty string when that
spaced form is absent, even if name="..." occurs without a preceding
space. -/
theorem c8_get_attachment_raw (env : Env) (spec : RedcapSpec)
    (recordId field : String) (r : HtResponse) (rest : List HtAttempt)
    (h : strStarts spec.apiUrl "https" = true) (hv : env.verifyLen r = true)
    (hs : r.status = 200) :
    getAttachmentOp env spec recordId field (HtAttempt.response r :: rest)
      = (.ok (.raw (parseFilename r.headers) r.content), 1) := by
  simp [getAttachmentOp, htpost, h, hv, hs]

/-- C8 witness: the spaced header form yields the captured filename and the
body bytes verbatim, despite a misleading text decoding. -/
theorem c8_witness :
    getAttachmentOp envArr specGood "1" "f"
        [HtAttempt.response respAttachment]
      = (.ok (.raw "report.csv" [0, 255, 1]), 1) :=
  (c8_get_attachment_raw envArr specGood "1" "f" respAttachment [] rfl rfl
    rfl).trans (by rfl)

/-- C9: update_field's data field is the JSON encoding of the one-element
list holding the dict built from record_id and the caller's field (never
the unwrapped object); at the spec's example arguments the encoded text is
exactly the bracket-wrapped object. -/
theorem c9_update_field_data_wrapped (spec : RedcapSpec)
    (recordId field val : String) :
    dictGet (updateFieldPostData spec recordId field val) "data"
      = some (jsonDumpsArr [pyDictOf [("record_id", recordId), (field, val)]])
    ∧ dictGet (updateFieldPostData specGood "5" "status" "done") "data"
      = some "[\x7b\"record_id\": \"5\", \"status\": \"done\"\x7d]" := by
  constructor
  · simp [updateFieldPostData, pyDictOf, dictInsert, dictGet]
  · decide

/-- C10: when the caller's field name is the literal record_id, the two
dict keys collide and the data field collapses to the JSON encoding of the
one-entry map carrying only the value argument -- the record-id argument is
overwritten and never reaches the request body (the built mapping does not
depend on it). -/
theorem c10_record_id_collision (spec : RedcapSpec) (recordId val : String) :
    dictGet (updateFieldPostData spec recordId "record_id" val) "data"
      = some (jsonDumpsArr [[("record_id", val)]])
    ∧ ∀ recordId2 : String,
        updateFieldPostData spec recordId "record_id" val
          = updateFieldPostData spec recordId2 "record_id" val := by
  constructor
  · simp [updateFieldPostData, pyDictOf, dictInsert, dictGet]
  · intro recordId2
    simp [updateFieldPostData, pyDictOf, dictInsert]

end Redcap
